import Mathlib

/-!
Verification development for the hyperzenith build orchestrator
(src/src-tauri/src/lib.rs and src/src-tauri/src/ios.rs).

The relevant Rust functions are shallowly embedded as executable Lean
definitions: byte streams become `List Nat` (each element a byte, < 256),
process/channel exit statuses become `Int`, fallible operations become
`Except`, and the ambient I/O environment (TCP connect outcome, handshake
outcome, key-file existence, remote command output, exit status) becomes an
explicit environment record threaded through the definitions.  Theorems about
the embedded definitions settle the specification claims.
-/

deriving instance DecidableEq for Except

namespace Hyperzenith

/-! ## UTF-8 decoding

`run_remote_command` (ios.rs) decodes each read chunk with
`String::from_utf8_lossy`; the local relays in `execute_build` (lib.rs) read
lines through `BufReader::lines`, which validates each line with strict UTF-8
(`read_line` fails with `InvalidData` on invalid bytes).  Both decoders are
embedded here over `List Nat` byte lists, following the UTF-8 table of
RFC 3629 exactly as Rust's `core::str::validations` implements it. -/

/-- A UTF-8 continuation byte: `0x80 ≤ b ≤ 0xBF`. -/
def isCont (b : Nat) : Bool := 128 ≤ b && b ≤ 191

/-- Lower bound for the second byte of a three-byte sequence headed by `b`
(`0xE0` requires `0xA0`, all other heads allow `0x80`). -/
def lo3 (b : Nat) : Nat := if b = 224 then 160 else 128

/-- Upper bound for the second byte of a three-byte sequence headed by `b`
(`0xED` stops at `0x9F`, excluding surrogates; others allow `0xBF`). -/
def hi3 (b : Nat) : Nat := if b = 237 then 159 else 191

/-- Lower bound for the second byte of a four-byte sequence headed by `b`
(`0xF0` requires `0x90`; others allow `0x80`). -/
def lo4 (b : Nat) : Nat := if b = 240 then 144 else 128

/-- Upper bound for the second byte of a four-byte sequence headed by `b`
(`0xF4` stops at `0x8F`, capping at U+10FFFF; others allow `0xBF`). -/
def hi4 (b : Nat) : Nat := if b = 244 then 143 else 191

/-- Strict UTF-8 decoding of a byte list to its scalar values, mirroring
Rust's `str::from_utf8`: `none` exactly when the bytes are not valid UTF-8. -/
def utf8Decode : List Nat → Option (List Nat)
  | [] => some []
  | b :: rest =>
    if b ≤ 127 then (utf8Decode rest).map (b :: ·)
    else if 194 ≤ b && b ≤ 223 then
      match rest with
      | b2 :: r2 =>
        if isCont b2 then (utf8Decode r2).map (((b - 192) * 64 + (b2 - 128)) :: ·)
        else none
      | [] => none
    else if 224 ≤ b && b ≤ 239 then
      match rest with
      | b2 :: b3 :: r3 =>
        if (lo3 b ≤ b2 && b2 ≤ hi3 b) && isCont b3 then
          (utf8Decode r3).map (((b - 224) * 4096 + (b2 - 128) * 64 + (b3 - 128)) :: ·)
        else none
      | _ => none
    else if 240 ≤ b && b ≤ 244 then
      match rest with
      | b2 :: b3 :: b4 :: r4 =>
        if ((lo4 b ≤ b2 && b2 ≤ hi4 b) && isCont b3) && isCont b4 then
          (utf8Decode r4).map
            (((b - 240) * 262144 + (b2 - 128) * 4096 + (b3 - 128) * 64 + (b4 - 128)) :: ·)
        else none
      | _ => none
    else none

/-- Strict UTF-8 decoding to a `String` (`none` on invalid bytes). -/
def utf8DecodeStr (l : List Nat) : Option String :=
  (utf8Decode l).map (fun cps => String.mk (cps.map Char.ofNat))

/-- Lossy UTF-8 decoding to scalar values, mirroring Rust's
`String::from_utf8_lossy`: each maximal invalid subpart is replaced by one
U+FFFD (`0xFFFD`) and decoding always continues to the end of the bytes. -/
def utf8Lossy : List Nat → List Nat
  | [] => []
  | b :: rest =>
    if b ≤ 127 then b :: utf8Lossy rest
    else if 194 ≤ b && b ≤ 223 then
      match rest with
      | b2 :: r2 =>
        if isCont b2 then ((b - 192) * 64 + (b2 - 128)) :: utf8Lossy r2
        else 0xFFFD :: utf8Lossy (b2 :: r2)
      | [] => [0xFFFD]
    else if 224 ≤ b && b ≤ 239 then
      match rest with
      | b2 :: r2 =>
        if lo3 b ≤ b2 && b2 ≤ hi3 b then
          match r2 with
          | b3 :: r3 =>
            if isCont b3 then ((b - 224) * 4096 + (b2 - 128) * 64 + (b3 - 128)) :: utf8Lossy r3
            else 0xFFFD :: utf8Lossy (b3 :: r3)
          | [] => [0xFFFD]
        else 0xFFFD :: utf8Lossy (b2 :: r2)
      | [] => [0xFFFD]
    else if 240 ≤ b && b ≤ 244 then
      match rest with
      | b2 :: r2 =>
        if lo4 b ≤ b2 && b2 ≤ hi4 b then
          match r2 with
          | b3 :: r3 =>
            if isCont b3 then
              match r3 with
              | b4 :: r4 =>
                if isCont b4 then
                  ((b - 240) * 262144 + (b2 - 128) * 4096 + (b3 - 128) * 64 + (b4 - 128)) ::
                    utf8Lossy r4
                else 0xFFFD :: utf8Lossy (b4 :: r4)
              | [] => [0xFFFD]
            else 0xFFFD :: utf8Lossy (b3 :: r3)
          | [] => [0xFFFD]
        else 0xFFFD :: utf8Lossy (b2 :: r2)
      | [] => [0xFFFD]
    else 0xFFFD :: utf8Lossy rest
termination_by l => l.length
decreasing_by all_goals simp_arith [List.length]

/-- Lossy UTF-8 decoding to a `String` (total, never fails). -/
def utf8LossyStr (l : List Nat) : String :=
  String.mk ((utf8Lossy l).map Char.ofNat)

/-! ## String helpers -/

/-- Exact concatenation of a list of strings, in order. -/
def strConcat : List String → String
  | [] => ""
  | s :: rest => s ++ strConcat rest

/-- `needle` occurs contiguously inside `haystack`, as Rust's
`str::contains(&str)` decides it. -/
def containsSub (haystack needle : List Char) : Bool :=
  match haystack with
  | [] => needle.isEmpty
  | _ :: t => needle.isPrefixOf haystack || containsSub t needle

/-- Substring test on `String`s (Rust `str::contains`). -/
def strContains (haystack needle : String) : Bool :=
  containsSub haystack.data needle.data

/-! ## Stream relays

`execute_build` (lib.rs, lines 196–214) drains the local process's stdout and
stderr with one thread each: `BufReader::new(stream).lines().map_while(Result::ok)`
yields successive lines (strict UTF-8, terminator stripped) and stops at the
first read error — in particular at the first line holding invalid UTF-8 —,
emits each line to the observer and appends `line ++ "\n"` to the shared log
buffer.  Because the reader is buffered, only the concatenation of the chunks
the stream yields matters, not how reads split it.

`run_remote_command` (ios.rs, lines 108–122) reads the remote channel in
chunks of at most 1024 bytes until a zero-byte read, decodes each chunk with
`String::from_utf8_lossy`, emits the decoded chunk and appends the same text
to the log buffer when one is supplied. -/

/-- Split a byte stream into the byte lists `BufRead::read_line` returns one
after another: each piece keeps its terminating newline byte (10); a final
piece without a newline is yielded as well. -/
def splitLinesAux (cur : List Nat) : List Nat → List (List Nat)
  | [] => if cur.isEmpty then [] else [cur.reverse]
  | b :: rest =>
    if b = 10 then (cur.reverse ++ [10]) :: splitLinesAux [] rest
    else splitLinesAux (b :: cur) rest

/-- The lines of a byte stream, terminators kept (see `splitLinesAux`). -/
def splitLines (bytes : List Nat) : List (List Nat) := splitLinesAux [] bytes

/-- Strip the line terminator exactly as `BufRead::lines` does: drop a
trailing newline, and after that a trailing carriage return (13); a line that
did not end in a newline keeps a trailing carriage return. -/
def stripLineEnd (l : List Nat) : List Nat :=
  match l.reverse with
  | 10 :: 13 :: r => r.reverse
  | 10 :: r => r.reverse
  | _ => l

/-- The local relay of `execute_build` over the successive raw lines of one
output stream: while a line is valid UTF-8 it is decoded (terminator
stripped), emitted to the observer and appended to the log buffer followed by
a newline; the first invalid line ends the relay (`lines()` yields `Err`,
`map_while(Result::ok)` stops).  Returns (emitted chunks, log buffer). -/
def localRelayLines : List (List Nat) → List String × String
  | [] => ([], "")
  | line :: rest =>
    if (utf8DecodeStr line).isSome then
      let s := (utf8DecodeStr (stripLineEnd line)).getD ""
      let next := localRelayLines rest
      (s :: next.1, s ++ "\n" ++ next.2)
    else ([], "")

/-- The local relay on a stream delivered as a list of read chunks followed by
a zero-byte read; `BufReader` buffering makes only their concatenation
visible. -/
def localRelay (chunks : List (List Nat)) : List String × String :=
  localRelayLines (splitLines chunks.flatten)

/-- The remote relay of `run_remote_command` over the successive nonempty
chunks `channel.read` returns before the zero-byte read: every chunk is
decoded lossily, emitted, and appended to the log buffer when `withBuffer`
(the `Some(&log_buffer)` argument) is set.  Returns (emitted chunks, log
buffer). -/
def remoteRelay (withBuffer : Bool) : List (List Nat) → List String × String
  | [] => ([], "")
  | chunk :: rest =>
    let out := utf8LossyStr chunk
    let next := remoteRelay withBuffer rest
    (out :: next.1, if withBuffer then out ++ next.2 else next.2)

/-! ## Hardware profile (lib.rs, `calculate_profile`)

The source computes the worker count as `((cpu_cores as f64) * 0.9).floor()`.
That computation is embedded exactly under IEEE-754 binary64 semantics:
`usize → f64` rounds the integer to 53 significant bits (round to nearest,
ties to even), the multiplication by `0.9_f64 = 8106479329266893 / 2^53`
rounds the exact product back onto the 53-bit grid the same way, and `floor`
is exact on binary64.  All quantities are scaled to integers: a positive
double in the binade `[2^j, 2^(j+1)) / 2^53` has grid step `2^(j-52) / 2^53`,
so rounding the exact product `N / 2^53` is `rhe N (j-52)` at scale. -/

/-- Round `n / 2^s` to the nearest integer, ties to even (the IEEE-754
default rounding applied to a 2-power denominator). -/
def rhe (n s : Nat) : Nat :=
  if 2 * (n % 2 ^ s) > 2 ^ s then n / 2 ^ s + 1
  else if 2 * (n % 2 ^ s) < 2 ^ s then n / 2 ^ s
  else if n / 2 ^ s % 2 = 0 then n / 2 ^ s else n / 2 ^ s + 1

/-- `⌊log₂ n⌋` (0 at 0) by fuelled structural recursion, so that the kernel
can evaluate it (the library's `Nat.log2` is defined by well-founded
recursion and does not reduce); `natLog2_eq` identifies the two. -/
def log2Aux : Nat → Nat → Nat
  | 0, _ => 0
  | fuel + 1, n => if 2 ≤ n then log2Aux fuel (n / 2) + 1 else 0

/-- `⌊log₂ n⌋` (0 at 0), kernel-computable. -/
def natLog2 (n : Nat) : Nat := log2Aux n n

/-- The exact integer value of `(c as f64)` for a `usize` `c`: exact below
`2^53`, otherwise rounded to 53 significant bits, ties to even. -/
def natToF64 (c : Nat) : Nat :=
  if c < 2 ^ 53 then c
  else rhe c (natLog2 c - 52) * 2 ^ (natLog2 c - 52)

/-- The significand of `0.9_f64`: the nearest binary64 to 0.9 is
`8106479329266893 / 2^53` (slightly above 9/10: ten times it is
`9 * 2^53 + 2`). -/
def f64PointNine : Nat := 8106479329266893

/-- `((c as f64) * 0.9).floor() as usize` under exact IEEE-754 binary64
semantics: the exact product `natToF64 c * f64PointNine / 2^53` is rounded
to nearest-even onto the 53-bit grid of its binade and then floored.  (No
overflow or saturation occurs for any 64-bit `c`: the result stays below
`2^64`.) -/
def floorMul09 (c : Nat) : Nat :=
  if natLog2 (natToF64 c * f64PointNine) ≤ 52 then
    natToF64 c * f64PointNine / 2 ^ 53
  else
    rhe (natToF64 c * f64PointNine) (natLog2 (natToF64 c * f64PointNine) - 52) *
      2 ^ (natLog2 (natToF64 c * f64PointNine) - 52) / 2 ^ 53

/-- The `HardwareProfile` struct of lib.rs. -/
structure HardwareProfile where
  max_workers : Nat
  jvm_heap_gb : Nat
  cpu_cores : Nat
  total_ram_gb : Nat
deriving DecidableEq, Repr

/-- `calculate_profile` (lib.rs, lines 56–70).  The worker count is the `f64`
computation `((cpu_cores as f64) * 0.9).floor()`, embedded exactly as
`floorMul09`.  For the heap, `total_ram_gb < 2^34` (a `u64` byte count
divided by `2^30`) converts to `f64` exactly, and multiplication by the
exactly representable `0.5` only shifts the exponent, so
`((total_ram_gb as f64) * 0.5).floor()` is exactly `total_ram_gb / 2`. -/
def calculate_profile (cpu_cores : Nat) (total_ram_bytes : Nat) : HardwareProfile :=
  let total_ram_gb := total_ram_bytes / 1024 / 1024 / 1024
  let max_workers := floorMul09 cpu_cores
  let jvm_heap_gb := total_ram_gb / 2
  { max_workers := Nat.max max_workers 4
    jvm_heap_gb := Nat.min (Nat.max jvm_heap_gb 4) 16
    cpu_cores := cpu_cores
    total_ram_gb := total_ram_gb }

/-! ## Active-Build Registry (lib.rs, `ACTIVE_BUILD_HANDLE`)

The registry is the process-wide `Mutex<Option<Child>>` slot; a `Nat`
identifies a child handle. -/

/-- `abort_build` (lib.rs, lines 72–81) on a given registry state: `take()`s
the slot and kills the occupant if there is one.  Returns (the registry
afterwards, the handles killed, the command's returned value). -/
def abort_build (reg : Option Nat) : Option Nat × List Nat × Except String String :=
  match reg with
  | some child => (none, [child], Except.ok "Build Aborted")
  | none => (none, [], Except.ok "No active build")

/-- What `execute_build` does to the registry around a spawn. -/
structure RegistryEffect where
  /-- Handles `kill()`ed by the "Kill orphans" block. -/
  killed : List Nat
  /-- The registry slot's content from the spawn up to and including the
  `child.wait()` call. -/
  registryDuringWait : Option Nat
  /-- The handle the controller waits on (a local variable of
  `execute_build`). -/
  waitedChild : Nat
deriving DecidableEq, Repr

/-- The Active-Build Registry interaction of `execute_build` (lib.rs, lines
180–190): the "Kill orphans" block `take()`s and kills any previously
registered handle, then the new child is spawned and held in a local
variable until `child.wait()`.  No statement of `execute_build` stores
`newChild` (or anything else) back into `ACTIVE_BUILD_HANDLE`, so the slot
stays empty while the build runs. -/
def execute_build_registry (reg : Option Nat) (newChild : Nat) : RegistryEffect :=
  match reg with
  | some existing => { killed := [existing], registryDuringWait := none, waitedChild := newChild }
  | none => { killed := [], registryDuringWait := none, waitedChild := newChild }

/-! ## Remote session establishment (ios.rs, `create_session`) -/

/-- The `MacConfig` struct of ios.rs (the Connection Descriptor). -/
structure MacConfig where
  ip : String
  username : String
  password : Option String
  ssh_key_path : Option String
deriving DecidableEq, Repr

/-- `parse_ip_and_port` (ios.rs, lines 19–25): split at the first colon,
defaulting the port to 22. -/
def splitOnceColon : List Char → Option (List Char × List Char)
  | [] => none
  | c :: rest =>
    if c = ':' then some ([], rest)
    else (splitOnceColon rest).map (fun p => (c :: p.1, p.2))

/-- `parse_ip_and_port` on `String`s. -/
def parse_ip_and_port (input : String) : String × String :=
  match splitOnceColon input.data with
  | some (a, b) => (String.mk a, String.mk b)
  | none => (input, "22")

/-- The I/O steps `create_session` can take, in order of occurrence. -/
inductive SessionEvent
  | socketConnect
  | handshake
  | keyAuth
  | passwordAuth
deriving DecidableEq, Repr

/-- The error returns of `create_session`, one constructor per `return Err` /
`map_err` site, with the data interpolated into the source's message. -/
inductive SshErr
  | ipEmpty
  | usernameEmpty
  | connectFailed (addr osMsg : String)
  | handshakeFailed (ip osMsg : String)
  | keyNotFound (path : String)
  | keyAuthFailed (username osMsg : String)
  | passwordAuthFailed (username osMsg : String)
  | noCredentials
  | credentialsRejected (username ip : String)
deriving DecidableEq, Repr

/-- The exact error strings `create_session` builds (each `format!` written
out as concatenation). -/
def SshErr.render : SshErr → String
  | .ipEmpty => "Connection failed: IP address is empty"
  | .usernameEmpty => "Connection failed: Username is empty"
  | .connectFailed addr osMsg =>
      "Connection failed: Cannot reach '" ++ addr ++ "' - " ++ osMsg ++ " (Check IP/Port)"
  | .handshakeFailed ip osMsg => "SSH Handshake failed with '" ++ ip ++ "' - " ++ osMsg
  | .keyNotFound path => "SSH Key file not found: '" ++ path ++ "' (Check path)"
  | .keyAuthFailed username osMsg =>
      "SSH Key auth failed for user '" ++ username ++ "': " ++ osMsg ++
        " (Check username, key path, and permissions)"
  | .passwordAuthFailed username osMsg =>
      "Password auth failed for user '" ++ username ++ "': " ++ osMsg ++
        " (Check username and password)"
  | .noCredentials => "No credentials provided: Enter either SSH Key Path OR Password"
  | .credentialsRejected username ip =>
      "Authentication failed for user '" ++ username ++ "' at '" ++ ip ++
        "' (Credentials rejected)"

/-- The environment `create_session` runs against: outcomes of the fallible
external operations (`none` = the operation succeeds, `some e` = it fails
with OS/library message `e`), local key-file existence, and the
`sess.authenticated()` flag after a successful auth call. -/
structure SshEnv where
  connectErr : Option String
  handshakeErr : Option String
  keyFileExists : Bool
  keyAuthErr : Option String
  passwordAuthErr : Option String
  authenticatedFlag : Bool
deriving DecidableEq, Repr

/-- ios.rs line 68: a key credential is present when `ssh_key_path` is `Some`
of a non-empty string. -/
def hasKeyCred (c : MacConfig) : Bool :=
  (c.ssh_key_path.map (fun k => !k.isEmpty)).getD false

/-- ios.rs line 69: a password credential is present when `password` is
`Some` of a non-empty string. -/
def hasPasswordCred (c : MacConfig) : Bool :=
  (c.password.map (fun p => !p.isEmpty)).getD false

/-- `create_session` (ios.rs, lines 42–92): validate IP and username, open
the TCP connection, handshake, then authenticate — key file taking
precedence, its existence checked before any auth attempt; with no non-empty
credential the function fails with `noCredentials`; after a successful auth
call the `authenticated()` flag is double-checked.  Returns (the I/O events
attempted, in order, and the result). -/
def create_session (cfg : MacConfig) (env : SshEnv) :
    List SessionEvent × Except SshErr Unit :=
  let ipPort := parse_ip_and_port cfg.ip
  if ipPort.1.isEmpty then ([], Except.error SshErr.ipEmpty)
  else if cfg.username.isEmpty then ([], Except.error SshErr.usernameEmpty)
  else
    let addr := ipPort.1 ++ ":" ++ ipPort.2
    match env.connectErr with
    | some e => ([SessionEvent.socketConnect], Except.error (SshErr.connectFailed addr e))
    | none =>
      match env.handshakeErr with
      | some e =>
          ([SessionEvent.socketConnect, SessionEvent.handshake],
           Except.error (SshErr.handshakeFailed ipPort.1 e))
      | none =>
        let ev := [SessionEvent.socketConnect, SessionEvent.handshake]
        if hasKeyCred cfg then
          let keyPath := cfg.ssh_key_path.getD ""
          if !env.keyFileExists then (ev, Except.error (SshErr.keyNotFound keyPath))
          else
            match env.keyAuthErr with
            | some e =>
                (ev ++ [SessionEvent.keyAuth],
                 Except.error (SshErr.keyAuthFailed cfg.username e))
            | none =>
              if !env.authenticatedFlag then
                (ev ++ [SessionEvent.keyAuth],
                 Except.error (SshErr.credentialsRejected cfg.username ipPort.1))
              else (ev ++ [SessionEvent.keyAuth], Except.ok ())
        else if hasPasswordCred cfg then
          match env.passwordAuthErr with
          | some e =>
              (ev ++ [SessionEvent.passwordAuth],
               Except.error (SshErr.passwordAuthFailed cfg.username e))
          | none =>
            if !env.authenticatedFlag then
              (ev ++ [SessionEvent.passwordAuth],
               Except.error (SshErr.credentialsRejected cfg.username ipPort.1))
            else (ev ++ [SessionEvent.passwordAuth], Except.ok ())
        else (ev, Except.error SshErr.noCredentials)

/-! ## Remote command execution (ios.rs, `run_remote_command`) -/

/-- The environment one remote command runs against: outcomes of
`sess.channel_session()` and `channel.exec(..)` (`none` = success), the
nonempty chunks the channel yields before the zero-byte read, and the exit
status `channel.exit_status()` reports (`none` when it cannot be obtained,
which the source maps to `-1` via `unwrap_or(-1)`). -/
structure ChannelEnv where
  channelErr : Option String
  execErr : Option String
  chunks : List (List Nat)
  exitStatus : Option Int
deriving DecidableEq, Repr

/-- `run_remote_command` (ios.rs, lines 95–131): open a channel, exec the
command, relay the output (buffering it when `withBuffer`), then classify:
exit status `0` is success, anything else — including the `-1` substituted
for an unobtainable status — is `Err("Command failed with exit code: ..")`.
Returns (emitted chunks, log buffer, result). -/
def run_remote_command (env : ChannelEnv) (withBuffer : Bool) :
    List String × String × Except String Unit :=
  match env.channelErr with
  | some e => ([], "", Except.error ("Failed to open channel: " ++ e))
  | none =>
    match env.execErr with
    | some e => ([], "", Except.error ("Failed to exec command: " ++ e))
    | none =>
      let relayed := remoteRelay withBuffer env.chunks
      let exitStatus := env.exitStatus.getD (-1)
      if exitStatus ≠ 0 then
        (relayed.1, relayed.2,
         Except.error ("Command failed with exit code: " ++ toString exitStatus))
      else (relayed.1, relayed.2, Except.ok ())

/-! ## Outcome classification and log persistence -/

/-- The timestamped log path `execute_build` (lib.rs, lines 218–221) builds:
directory `hyperzenith_logs` under the working directory, filename
`<status-prefix>_<timestamp>.log` where the status prefix is
`android_build_success` for exit status zero and `android_build_fail`
otherwise.  (`Path::join`'s platform separator is rendered as `/` here; only
the path's components matter to the claims.) -/
def androidLogPath (workingDir : String) (exitCode : Int) (timestamp : String) : String :=
  let pfx := if exitCode = 0 then "android_build_success" else "android_build_fail"
  workingDir ++ "/hyperzenith_logs/" ++ pfx ++ "_" ++ timestamp ++ ".log"

/-- Terminal state of the local Android build path. -/
structure AndroidOutcome where
  /-- The log buffer was written to `logPath` (the write itself is
  best-effort: its `Result` is discarded). -/
  logWritten : Bool
  logPath : String
  result : Except String String
deriving DecidableEq, Repr

/-- The tail of `execute_build` (lib.rs, lines 215–281) after both relays
joined and `child.wait()` returned `exitCode`: the log buffer is written to
the timestamped log path before the branch on `status.success()`; exit status
zero returns `Ok` (with a message refined by artifact existence and
freshness), any nonzero exit status returns
`Err("Build failed. Log: <log path>")`. -/
def androidFinish (workingDir : String) (exitCode : Int) (timestamp : String)
    (artifactExists isFresh : Bool) : AndroidOutcome :=
  let logPath := androidLogPath workingDir exitCode timestamp
  { logWritten := true
    logPath := logPath
    result :=
      if exitCode = 0 then
        Except.ok
          (if artifactExists then
            if isFresh then "Build completed! (Fresh APK)"
            else "Build completed! (Cached - no code changes)"
          else "Build completed!")
      else Except.error ("Build failed. Log: " ++ logPath) }

/-! ## Remote iOS build (ios.rs, `execute_turbo_ios`) -/

/-- The environment `execute_turbo_ios` runs against: the session
environment, the pre-flight channel's open/exec outcomes and the text the
pre-flight command printed, the build command's channel environment, and the
home directory and timestamp used for the log file. -/
structure TurboEnv where
  ssh : SshEnv
  preChannelErr : Option String
  preExecErr : Option String
  preflightOutput : String
  build : ChannelEnv
  /-- The directory `dirs::home_dir()` reports; the embedding assumes one is
  available (the source silently skips the log write in the pathological case
  where the platform reports none). -/
  homeDir : String
  timestamp : String
deriving DecidableEq, Repr

/-- Terminal state of the remote iOS build path. -/
structure TurboOutcome where
  /-- The hydration+build command was submitted to `run_remote_command`. -/
  buildIssued : Bool
  /-- The log buffer was written to `logPath`. -/
  logWritten : Bool
  logPath : String
  result : Except String String
deriving DecidableEq, Repr

/-- The marker the pre-flight command `which xcodebuild || echo
'XCODE_NOT_FOUND'` prints when the toolchain is absent. -/
def xcodeNotFoundMarker : String := "XCODE_NOT_FOUND"

/-- ios.rs line 191: the error returned when the pre-flight output holds the
marker. -/
def envInvalidMsg : String :=
  "Remote environment invalid: 'xcodebuild' not found in PATH. Check if Xcode is installed and CLI tools are configured."

/-- `execute_turbo_ios` (ios.rs, lines 167–265): create the session, run the
pre-flight toolchain check on a fresh channel, abort with `envInvalidMsg` if
its output holds `XCODE_NOT_FOUND` (never reaching hydration or build), else
run the hydration+build command with a log buffer, write the buffer to a
timestamped file under `<home>/.hyperzenith/ios_logs` with prefix
`ios_build_success`/`ios_build_fail` by the build result, on both branches,
and return the build result (failure messages passed through). -/
def execute_turbo_ios (cfg : MacConfig) (env : TurboEnv) : TurboOutcome :=
  match (create_session cfg env.ssh).2 with
  | Except.error e =>
      { buildIssued := false, logWritten := false, logPath := "",
        result := Except.error e.render }
  | Except.ok _ =>
    match env.preChannelErr with
    | some e =>
        { buildIssued := false, logWritten := false, logPath := "",
          result := Except.error ("Pre-flight check failed: " ++ e) }
    | none =>
      match env.preExecErr with
      | some e =>
          { buildIssued := false, logWritten := false, logPath := "",
            result := Except.error ("Pre-flight exec failed: " ++ e) }
      | none =>
        if strContains env.preflightOutput xcodeNotFoundMarker then
          { buildIssued := false, logWritten := false, logPath := "",
            result := Except.error envInvalidMsg }
        else
          let build := run_remote_command env.build true
          let isOk : Bool := match build.2.2 with
            | Except.ok _ => true
            | Except.error _ => false
          let pfx := if isOk then "ios_build_success" else "ios_build_fail"
          let logPath :=
            env.homeDir ++ "/.hyperzenith/ios_logs/" ++ pfx ++ "_" ++ env.timestamp ++ ".log"
          { buildIssued := true
            logWritten := true
            logPath := logPath
            result :=
              match build.2.2 with
              | Except.ok _ => Except.ok "iOS Build Completed Successfully via Satellite"
              | Except.error e => Except.error e }

/-! ## Claim C8: hardware profile arithmetic -/

/-- `rhe` never rounds below the truncated quotient. -/
theorem le_rhe (n s : Nat) : n / 2 ^ s ≤ rhe n s := by
  unfold rhe
  split_ifs <;> omega

/-- Rounding to the nearest multiple of `2^s` (ties even) moves `n` upward by
at most half a step. -/
theorem rhe_mul_le (n s : Nat) (hs : 1 ≤ s) : rhe n s * 2 ^ s ≤ n + 2 ^ (s - 1) := by
  have h1 : 2 ^ (s - 1) * 2 = 2 ^ s := by
    rw [← pow_succ]
    congr 1
    omega
  have h2 : n / 2 ^ s * 2 ^ s + n % 2 ^ s = n := Nat.div_add_mod' n (2 ^ s)
  have h3 : n % 2 ^ s < 2 ^ s := Nat.mod_lt _ (Nat.two_pow_pos s)
  have h4 : (n / 2 ^ s + 1) * 2 ^ s = n / 2 ^ s * 2 ^ s + 2 ^ s := by
    rw [Nat.add_mul, Nat.one_mul]
  unfold rhe
  split_ifs <;> omega

/-- `log2Aux` with enough fuel brackets a positive `n` between consecutive
powers of two. -/
theorem log2Aux_sandwich (fuel : Nat) :
    ∀ n, 1 ≤ n → n ≤ fuel → 2 ^ log2Aux fuel n ≤ n ∧ n < 2 ^ (log2Aux fuel n + 1) := by
  induction fuel with
  | zero => intro n h1 h2; omega
  | succ fuel ih =>
    intro n h1 h2
    by_cases h : 2 ≤ n
    · have hrec := ih (n / 2) (by omega) (by omega)
      simp only [log2Aux, if_pos h]
      have e1 : 2 ^ (log2Aux fuel (n / 2) + 1) = 2 ^ log2Aux fuel (n / 2) * 2 := pow_succ 2 _
      have e2 : 2 ^ (log2Aux fuel (n / 2) + 1 + 1) = 2 ^ (log2Aux fuel (n / 2) + 1) * 2 :=
        pow_succ 2 _
      omega
    · simp only [log2Aux, if_neg h]
      omega

/-- `natLog2` computes the library's `Nat.log2` on positive inputs. -/
theorem natLog2_eq (n : Nat) (h : n ≠ 0) : natLog2 n = Nat.log2 n := by
  obtain ⟨hle, hlt⟩ := log2Aux_sandwich n n (by omega) le_rfl
  have h1 : log2Aux n n ≤ Nat.log2 n := (Nat.le_log2 h).mpr hle
  have h2 : Nat.log2 n < log2Aux n n + 1 := (Nat.log2_lt h).mpr hlt
  show log2Aux n n = Nat.log2 n
  omega

/-- Up to `10^15` cores — far beyond physical hardware — the binary64
computation `((c as f64) * 0.9).floor()` agrees with the exact rational
floor `9 * c / 10`.  (The two computations first diverge a little beyond
`1.25 * 10^15`; `C8_counterexample` exhibits a diverging input.) -/
theorem floorMul09_eq_of_le (c : Nat) (hc : c ≤ 10 ^ 15) :
    floorMul09 c = 9 * c / 10 := by
  by_cases h0 : c = 0
  · subst h0; decide
  by_cases h1 : c = 1
  · subst h1; decide
  have hc2 : 2 ≤ c := by omega
  have hnat : natToF64 c = c := by
    unfold natToF64
    rw [if_pos (by omega : c < 2 ^ 53)]
  set N := natToF64 c * f64PointNine with hNdef
  have hNval : N = c * 8106479329266893 := by rw [hNdef, hnat]; rfl
  have hNlow : 2 ^ 53 ≤ N := by
    have h2M : 2 * 8106479329266893 ≤ c * 8106479329266893 :=
      Nat.mul_le_mul_right _ hc2
    omega
  have hNup : N < 2 ^ 103 := by
    have hup : c * 8106479329266893 ≤ 1000000000000000 * 8106479329266893 :=
      Nat.mul_le_mul_right _ (by omega)
    omega
  have hsand : 2 ^ natLog2 N ≤ N ∧ N < 2 ^ (natLog2 N + 1) :=
    log2Aux_sandwich N N (by omega) le_rfl
  have hj53 : 53 ≤ natLog2 N := by
    by_contra hcon
    have : 2 ^ (natLog2 N + 1) ≤ 2 ^ 53 :=
      Nat.pow_le_pow_right (by norm_num) (by omega)
    omega
  have hjup : natLog2 N ≤ 102 := by
    by_contra hcon
    have : 2 ^ 103 ≤ 2 ^ natLog2 N :=
      Nat.pow_le_pow_right (by norm_num) (by omega)
    omega
  set s := natLog2 N - 52 with hsdef
  have hs1 : 1 ≤ s := by omega
  have hbranch : floorMul09 c = rhe N s * 2 ^ s / 2 ^ 53 := by
    unfold floorMul09
    rw [← hNdef, ← hsdef, if_neg (by omega : ¬natLog2 N ≤ 52)]
  have hKle : 9 * c / 10 * 2 ^ 53 ≤ N := by omega
  have hKlt : N + 2 ^ (s - 1) < (9 * c / 10 + 1) * 2 ^ 53 := by
    have hF : 2 ^ (s - 1) ≤ 2 ^ 49 := Nat.pow_le_pow_right (by norm_num) (by omega)
    omega
  have hlow2 : 9 * c / 10 * 2 ^ 53 ≤ N / 2 ^ s * 2 ^ s := by
    have hsplitpow : (2 : Nat) ^ 53 = 2 ^ (53 - s) * 2 ^ s := by
      rw [← Nat.pow_add]
      congr 1
      omega
    rw [hsplitpow, ← Nat.mul_assoc]
    refine Nat.mul_le_mul_right _ ?_
    rw [Nat.le_div_iff_mul_le (Nat.two_pow_pos s), Nat.mul_assoc, ← hsplitpow]
    exact hKle
  have hle : 9 * c / 10 * 2 ^ 53 ≤ rhe N s * 2 ^ s :=
    le_trans hlow2 (Nat.mul_le_mul_right _ (le_rhe N s))
  have hlt : rhe N s * 2 ^ s < (9 * c / 10 + 1) * 2 ^ 53 :=
    lt_of_le_of_lt (rhe_mul_le N s hs1) hKlt
  rw [hbranch]
  exact Nat.div_eq_of_lt_le hle hlt

set_option maxRecDepth 8000 in
/-- C8 (counterexample): at `core_count = 2251799813685241` (a valid 64-bit
`usize`, below `2^52` so its `f64` conversion is exact) the program's
binary64 product rounds upward across the integer boundary:
`((2251799813685241 as f64) * 0.9).floor()` is `2026619832316717`, one more
than the exact `floor(core_count * 0.9) = 2026619832316716` the claim states,
so the claimed worker formula is false of the program at this input. -/
theorem C8_counterexample :
    (calculate_profile 2251799813685241 (4 * 2 ^ 30)).max_workers = 2026619832316717 ∧
    Nat.max 4 (9 * 2251799813685241 / 10) = 2026619832316716 ∧
    (calculate_profile 2251799813685241 (4 * 2 ^ 30)).max_workers ≠
      Nat.max 4 (9 * 2251799813685241 / 10) := by decide

/-- C8 (amended): for every `(core_count, total_ram_bytes)`,
`calculate_profile` returns `jvm_heap_gb = clamp(floor(total_ram_gb * 0.5),
4, 16)` with `total_ram_gb = floor(total_ram_bytes / 2^30)`, `max_workers ≥ 4`
and `jvm_heap_gb ∈ [4, 16]`, with the heap monotone in the RAM; for every
core count up to `10^15` — beyond any physical machine —
`max_workers = max(4, floor(core_count * 0.9))` exactly, monotone on that
range; in particular (32 cores, 256 GiB) yields heap 16 and workers 28 while
(2 cores, 4 GiB) yields heap 4 and workers 4.  (Beyond `10^15` cores the
binary64 rounding can exceed the exact floor by one, see the
counterexample.) -/
theorem C8_profile_bounded :
    (∀ c b, (calculate_profile c b).total_ram_gb = b / 2 ^ 30 ∧
      (calculate_profile c b).jvm_heap_gb = Nat.min (Nat.max (b / 2 ^ 30 / 2) 4) 16 ∧
      4 ≤ (calculate_profile c b).max_workers ∧
      4 ≤ (calculate_profile c b).jvm_heap_gb ∧
      (calculate_profile c b).jvm_heap_gb ≤ 16) ∧
    (∀ c b, c ≤ 10 ^ 15 →
      (calculate_profile c b).max_workers = Nat.max 4 (9 * c / 10)) ∧
    (∀ c c' b, c ≤ c' → c' ≤ 10 ^ 15 →
      (calculate_profile c b).max_workers ≤ (calculate_profile c' b).max_workers) ∧
    (∀ c b b', b ≤ b' →
      (calculate_profile c b).jvm_heap_gb ≤ (calculate_profile c b').jvm_heap_gb) ∧
    calculate_profile 32 (256 * 2 ^ 30) =
      { max_workers := 28, jvm_heap_gb := 16, cpu_cores := 32, total_ram_gb := 256 } ∧
    calculate_profile 2 (4 * 2 ^ 30) =
      { max_workers := 4, jvm_heap_gb := 4, cpu_cores := 2, total_ram_gb := 4 } := by
  refine ⟨fun c b => ?_, fun c b hc => ?_, fun c c' b h h' => ?_, fun c b b' h => ?_,
    by decide, by decide⟩
  · have hdiv : b / 1024 / 1024 / 1024 = b / 2 ^ 30 := by
      simp [Nat.div_div_eq_div_mul]
    refine ⟨by simp [calculate_profile, hdiv],
      by simp [calculate_profile, hdiv], ?_, ?_, ?_⟩
    · simp only [calculate_profile]
      exact Nat.le_max_right _ 4
    · simp only [calculate_profile]
      exact le_min (Nat.le_max_right _ 4) (by norm_num)
    · simp only [calculate_profile]
      exact Nat.min_le_right _ 16
  · simp only [calculate_profile]
    rw [floorMul09_eq_of_le c hc]
    exact Nat.max_comm _ _
  · simp only [calculate_profile]
    rw [floorMul09_eq_of_le c (le_trans h h'), floorMul09_eq_of_le c' h']
    exact max_le_max (Nat.div_le_div_right (Nat.mul_le_mul_left 9 h)) le_rfl
  · simp only [calculate_profile]
    exact min_le_min
      (max_le_max
        (Nat.div_le_div_right (Nat.div_le_div_right
          (Nat.div_le_div_right (Nat.div_le_div_right h)))) le_rfl)
      le_rfl

/-! ## Claim C9: abort idempotence and single-slot take -/

/-- C9: `abort_build` with an empty registry returns the "No active build"
indication without erroring; with a registered handle it takes the handle
(leaving the slot empty), kills exactly that handle, and reports that a build
was aborted. -/
theorem C9_abort_semantics :
    abort_build none = (none, [], Except.ok "No active build") ∧
    ∀ h : Nat, abort_build (some h) = (none, [h], Except.ok "Build Aborted") :=
  ⟨rfl, fun _ => rfl⟩

/-! ## Claim C1: the Active-Build Registry across `execute_build` -/

/-- C1 (code bug evidence): starting a build while handle 7 is registered
kills handle 7 first — but the newly spawned handle 42 is never stored in the
registry: the slot is empty while the controller waits, so the claimed
"registers the spawned handle before waiting" does not hold, and `abort_build`
run during the build finds nothing to kill. -/
theorem C1_registry_never_updated :
    execute_build_registry (some 7) 42 =
      { killed := [7], registryDuringWait := none, waitedChild := 42 } ∧
    (execute_build_registry (some 7) 42).registryDuringWait ≠ some 42 ∧
    execute_build_registry none 42 =
      { killed := [], registryDuringWait := none, waitedChild := 42 } ∧
    abort_build (execute_build_registry (some 7) 42).registryDuringWait =
      (none, [], Except.ok "No active build") := by decide

/-! ## Claim C10: remote exit-status classification -/

/-- C10: given the channel opened and the command was submitted,
`run_remote_command` succeeds exactly when the channel reports exit status 0;
an unobtainable exit status is substituted with `-1` and hence always reported
as the failure "Command failed with exit code: -1", never as success. -/
theorem C10_exit_status_classification (env : ChannelEnv) (withBuffer : Bool)
    (hch : env.channelErr = none) (hex : env.execErr = none) :
    ((run_remote_command env withBuffer).2.2 = Except.ok () ↔ env.exitStatus = some 0) ∧
    (env.exitStatus = none →
      (run_remote_command env withBuffer).2.2 =
        Except.error "Command failed with exit code: -1") := by
  rcases env with ⟨ce, ee, cs, st⟩
  simp only at hch hex
  subst hch hex
  cases st with
  | none => exact ⟨by simp [run_remote_command], fun _ => by simp [run_remote_command]; rfl⟩
  | some k =>
    refine ⟨?_, by simp⟩
    by_cases hk : k = 0 <;> simp [run_remote_command, hk]

/-- The concrete channel environment of `C10_witness`: both channel steps
succeed and the exit status cannot be obtained. -/
def chEnvNoStatus : ChannelEnv :=
  { channelErr := none, execErr := none, chunks := [[97]], exitStatus := none }

/-- C10 witness: the classification theorem applied to a concrete environment
whose exit status is unobtainable. -/
theorem C10_witness :
    ((run_remote_command chEnvNoStatus true).2.2 = Except.ok () ↔
      chEnvNoStatus.exitStatus = some 0) ∧
    (chEnvNoStatus.exitStatus = none →
      (run_remote_command chEnvNoStatus true).2.2 =
        Except.error "Command failed with exit code: -1") :=
  C10_exit_status_classification chEnvNoStatus true rfl rfl

/-! ## Claims C4 and C5: relay buffering and decoding -/

/-- In the local relay, the log buffer accumulates exactly the emitted lines,
each followed by the newline the buffer-append `format!("{}\n", line)` adds. -/
theorem localRelayLines_buffer (ls : List (List Nat)) :
    (localRelayLines ls).2 = strConcat ((localRelayLines ls).1.map (fun s => s ++ "\n")) := by
  induction ls with
  | nil => rfl
  | cons line rest ih =>
    by_cases hv : (utf8DecodeStr line).isSome
    · simp [localRelayLines, hv, strConcat, ih]
    · simp [localRelayLines, hv, strConcat]

/-- C4 (amended): for the remote channel the Log Buffer equals the exact
concatenation of the chunks emitted to the Observer, in stream order; for the
local stdout/stderr relays each emitted chunk is a line stripped of its
terminator and the Log Buffer equals the concatenation of the emitted lines
each followed by a newline, in stream order — not the bare concatenation of
the emitted chunks. -/
theorem C4_buffer_concatenation :
    (∀ chunks, (remoteRelay true chunks).2 = strConcat (remoteRelay true chunks).1) ∧
    (∀ chunks, (localRelay chunks).2 =
      strConcat ((localRelay chunks).1.map (fun s => s ++ "\n"))) := by
  constructor
  · intro chunks
    induction chunks with
    | nil => rfl
    | cons c rest ih => simp [remoteRelay, strConcat, ih]
  · intro chunks
    exact localRelayLines_buffer _

/-- C4 (counterexample): a local stream yielding bytes `"a\n"` then `"b"`
then a zero-byte read emits the chunks `"a"` and `"b"`, but the Log Buffer is
`"a\nb\n"`, not their exact concatenation `"ab"`. -/
theorem C4_counterexample :
    (localRelay [[97, 10], [98]]).1 = ["a", "b"] ∧
    (localRelay [[97, 10], [98]]).2 = "a\nb\n" ∧
    strConcat ["a", "b"] = "ab" ∧
    (localRelay [[97, 10], [98]]).2 ≠ strConcat (localRelay [[97, 10], [98]]).1 := by
  decide

/-- C5 (amended): the remote relay decodes every chunk as best-effort text
(lossy replacement) and always continues to end-of-stream, but the local
relays decode line-by-line strictly and stop at the first line that is not
valid UTF-8, relaying only the lines before it. -/
theorem C5_decode_policy :
    (∀ (withBuffer : Bool) chunks,
      (remoteRelay withBuffer chunks).1 = chunks.map utf8LossyStr) ∧
    (∀ pre bad rest, (∀ l ∈ pre, (utf8DecodeStr l).isSome = true) →
      (utf8DecodeStr bad).isSome = false →
      localRelayLines (pre ++ bad :: rest) = localRelayLines pre) := by
  constructor
  · intro withBuffer chunks
    induction chunks with
    | nil => rfl
    | cons c rest ih => simp [remoteRelay, ih]
  · intro pre bad rest hpre hbad
    induction pre with
    | nil => simp [localRelayLines, hbad]
    | cons l pre ih =>
      have hl : (utf8DecodeStr l).isSome = true := hpre l (by simp)
      have ih' := ih fun x hx => hpre x (by simp [hx])
      simp [localRelayLines, hl, ih']

/-- C5 (counterexample): a local stream whose first line holds the invalid
byte `0xFF` terminates the relay at once — the following perfectly valid line
`"a"` is never emitted and the buffer stays empty — although the claim says
invalid sequences are replaced and relaying continues to end-of-stream (as
the remote relay indeed does on the same bytes). -/
theorem C5_counterexample :
    localRelay [[255, 10], [97, 10]] = ([], "") ∧
    utf8DecodeStr (stripLineEnd [97, 10]) = some "a" ∧
    (remoteRelay true [[255, 10], [97, 10]]).1.length = 2 := by decide

/-! ## Claims C2 and C7: session establishment and authentication -/

/-- A Connection Descriptor with address and username set but neither
credential configured. -/
def cfgNoCreds : MacConfig :=
  { ip := "10.0.0.5", username := "dev", password := none, ssh_key_path := none }

/-- A session environment in which the TCP connection and the handshake
succeed (and a key auth, were one attempted, would be accepted). -/
def envReachable : SshEnv :=
  { connectErr := none, handshakeErr := none, keyFileExists := false,
    keyAuthErr := none, passwordAuthErr := none, authenticatedFlag := true }

/-- C2 (counterexample): a descriptor with neither credential, on a host the
TCP connection and handshake reach, fails with the "no credentials" error —
but only after the socket was opened and the handshake performed, against the
claim that the error precedes any network I/O. -/
theorem C2_counterexample :
    (create_session cfgNoCreds envReachable).2 = Except.error SshErr.noCredentials ∧
    SshErr.noCredentials.render =
      "No credentials provided: Enter either SSH Key Path OR Password" ∧
    SessionEvent.socketConnect ∈ (create_session cfgNoCreds envReachable).1 ∧
    SessionEvent.handshake ∈ (create_session cfgNoCreds envReachable).1 := by decide

/-- C2 (amended): credential presence is validated before any authentication
attempt, though after the socket is opened and the handshake performed: a
descriptor with neither a non-empty key path nor a non-empty password never
reaches an authentication call, and whenever the address/username validation
passes and connect and handshake succeed, `create_session` fails with the
"no credentials" error. -/
theorem C2_no_credentials_validation (cfg : MacConfig) (env : SshEnv)
    (hkey : hasKeyCred cfg = false) (hpwd : hasPasswordCred cfg = false) :
    SessionEvent.keyAuth ∉ (create_session cfg env).1 ∧
    SessionEvent.passwordAuth ∉ (create_session cfg env).1 ∧
    ((parse_ip_and_port cfg.ip).1.isEmpty = false → cfg.username.isEmpty = false →
      env.connectErr = none → env.handshakeErr = none →
      (create_session cfg env).2 = Except.error SshErr.noCredentials) := by
  rcases env with ⟨ce, he, kf, ka, pa, af⟩
  by_cases hip : (parse_ip_and_port cfg.ip).1.isEmpty <;>
    by_cases huser : cfg.username.isEmpty <;>
      cases ce <;> cases he <;>
        simp [create_session, hkey, hpwd, hip, huser]

/-- C2 witness: the amended theorem at the concrete no-credential descriptor
and reachable environment. -/
theorem C2_witness :
    SessionEvent.keyAuth ∉ (create_session cfgNoCreds envReachable).1 ∧
    SessionEvent.passwordAuth ∉ (create_session cfgNoCreds envReachable).1 ∧
    ((parse_ip_and_port cfgNoCreds.ip).1.isEmpty = false →
      cfgNoCreds.username.isEmpty = false →
      envReachable.connectErr = none → envReachable.handshakeErr = none →
      (create_session cfgNoCreds envReachable).2 = Except.error SshErr.noCredentials) :=
  C2_no_credentials_validation cfgNoCreds envReachable (by decide) (by decide)

/-- Two appended strings differ when the fixed front parts already differ on
their first `n` characters. -/
theorem string_ne_of_ne_fronts (a x b y : String) (n : Nat)
    (hn : n ≤ a.data.length) (hn' : n ≤ b.data.length)
    (hab : a.data.take n ≠ b.data.take n) : a ++ x ≠ b ++ y := by
  intro he
  apply hab
  have hd : (a ++ x).data = (b ++ y).data := by rw [he]
  rw [String.data_append, String.data_append] at hd
  have ht := congrArg (List.take n) hd
  rw [List.take_append_eq_append_take, List.take_append_eq_append_take,
    Nat.sub_eq_zero_of_le hn, Nat.sub_eq_zero_of_le hn'] at ht
  simpa using ht

/-- The "key not found" message differs from both rejected-credential
messages, whatever data is interpolated. -/
theorem keyNotFound_render_distinct (p u i m : String) :
    (SshErr.keyNotFound p).render ≠ (SshErr.credentialsRejected u i).render ∧
    (SshErr.keyNotFound p).render ≠ (SshErr.keyAuthFailed u m).render := by
  have h1 : (SshErr.keyNotFound p).render =
      "SSH Key file not found: '" ++ (p ++ "' (Check path)") := by
    simp [SshErr.render, String.append_assoc]
  have h2 : (SshErr.credentialsRejected u i).render =
      "Authentication failed for user '" ++
        (u ++ ("' at '" ++ (i ++ "' (Credentials rejected)"))) := by
    simp [SshErr.render, String.append_assoc]
  have h3 : (SshErr.keyAuthFailed u m).render =
      "SSH Key auth failed for user '" ++
        (u ++ ("': " ++ (m ++ " (Check username, key path, and permissions)"))) := by
    simp [SshErr.render, String.append_assoc]
  constructor
  · rw [h1, h2]
    exact string_ne_of_ne_fronts _ _ _ _ 9 (by decide) (by decide) (by decide)
  · rw [h1, h3]
    exact string_ne_of_ne_fronts _ _ _ _ 9 (by decide) (by decide) (by decide)

/-- C7: with the connection and handshake reachable, a configured non-empty
key path takes precedence (password auth is never attempted); the key file's
existence is checked before any auth call, failing with the "key not found"
error — distinct, for every interpolated data, from both
rejected-credential errors; without a key credential a non-empty password is
used for password authentication; with neither the result is the "no
credentials provided" error. -/
theorem C7_auth_precedence (cfg : MacConfig) (env : SshEnv)
    (hip : (parse_ip_and_port cfg.ip).1.isEmpty = false)
    (huser : cfg.username.isEmpty = false)
    (hconn : env.connectErr = none) (hhand : env.handshakeErr = none) :
    (hasKeyCred cfg = true → env.keyFileExists = false →
      (create_session cfg env).2 =
        Except.error (SshErr.keyNotFound (cfg.ssh_key_path.getD "")) ∧
      SessionEvent.keyAuth ∉ (create_session cfg env).1 ∧
      SessionEvent.passwordAuth ∉ (create_session cfg env).1) ∧
    (hasKeyCred cfg = true → SessionEvent.passwordAuth ∉ (create_session cfg env).1 ∧
      (env.keyFileExists = true → SessionEvent.keyAuth ∈ (create_session cfg env).1)) ∧
    (hasKeyCred cfg = false → hasPasswordCred cfg = true →
      SessionEvent.keyAuth ∉ (create_session cfg env).1 ∧
      SessionEvent.passwordAuth ∈ (create_session cfg env).1) ∧
    (hasKeyCred cfg = false → hasPasswordCred cfg = false →
      (create_session cfg env).2 = Except.error SshErr.noCredentials) ∧
    (∀ p u i m, (SshErr.keyNotFound p).render ≠ (SshErr.credentialsRejected u i).render ∧
      (SshErr.keyNotFound p).render ≠ (SshErr.keyAuthFailed u m).render) := by
  rcases env with ⟨ce, he, kf, ka, pa, af⟩
  simp only at hconn hhand
  subst hconn hhand
  refine ⟨?_, ?_, ?_, ?_, fun p u i m => keyNotFound_render_distinct p u i m⟩ <;>
    by_cases hkey : hasKeyCred cfg <;>
      by_cases hpwd : hasPasswordCred cfg <;>
        cases kf <;> cases ka <;> cases pa <;> cases af <;>
          simp [create_session, hip, huser, hkey, hpwd]

/-- A Connection Descriptor with both a key path and a password configured. -/
def cfgBothCreds : MacConfig :=
  { ip := "10.0.0.5:2222", username := "dev", password := some "hunter2",
    ssh_key_path := some "C:/keys/mac.pem" }

/-- A session environment where connect and handshake succeed but the key
file is missing on local disk. -/
def envKeyMissing : SshEnv :=
  { connectErr := none, handshakeErr := none, keyFileExists := false,
    keyAuthErr := none, passwordAuthErr := none, authenticatedFlag := true }

/-- C7 witness: the precedence theorem at a concrete descriptor holding both
credentials with the key file absent. -/
theorem C7_witness :
    (hasKeyCred cfgBothCreds = true → envKeyMissing.keyFileExists = false →
      (create_session cfgBothCreds envKeyMissing).2 =
        Except.error (SshErr.keyNotFound (cfgBothCreds.ssh_key_path.getD "")) ∧
      SessionEvent.keyAuth ∉ (create_session cfgBothCreds envKeyMissing).1 ∧
      SessionEvent.passwordAuth ∉ (create_session cfgBothCreds envKeyMissing).1) ∧
    (hasKeyCred cfgBothCreds = true →
      SessionEvent.passwordAuth ∉ (create_session cfgBothCreds envKeyMissing).1 ∧
      (envKeyMissing.keyFileExists = true →
        SessionEvent.keyAuth ∈ (create_session cfgBothCreds envKeyMissing).1)) ∧
    (hasKeyCred cfgBothCreds = false → hasPasswordCred cfgBothCreds = true →
      SessionEvent.keyAuth ∉ (create_session cfgBothCreds envKeyMissing).1 ∧
      SessionEvent.passwordAuth ∈ (create_session cfgBothCreds envKeyMissing).1) ∧
    (hasKeyCred cfgBothCreds = false → hasPasswordCred cfgBothCreds = false →
      (create_session cfgBothCreds envKeyMissing).2 = Except.error SshErr.noCredentials) ∧
    (∀ p u i m, (SshErr.keyNotFound p).render ≠ (SshErr.credentialsRejected u i).render ∧
      (SshErr.keyNotFound p).render ≠ (SshErr.keyAuthFailed u m).render) :=
  C7_auth_precedence cfgBothCreds envKeyMissing (by decide) (by decide) rfl rfl

/-! ## Claim C3: outcome classification and unconditional log persistence -/

/-- C3 (counterexample): on the local path the failure returned for exit code
5 is byte-for-byte the failure returned for exit code 7 — the message carries
the log path but not the numeric exit code (no "5" occurs in it), against the
claim that both paths return a Failure carrying the numeric exit code. -/
theorem C3_counterexample :
    (androidFinish "w" 5 "T" false false).result =
      (androidFinish "w" 7 "T" false false).result ∧
    (androidFinish "w" 5 "T" false false).result =
      Except.error "Build failed. Log: w/hyperzenith_logs/android_build_fail_T.log" ∧
    strContains "Build failed. Log: w/hyperzenith_logs/android_build_fail_T.log" "5" =
      false := by decide

/-- C3 (amended): on both paths exit status zero classifies as Success and
nonzero as Failure, and the Log Buffer is persisted to a timestamped file on
both branches before returning, with a success/fail filename prefix; the
remote Failure message carries the numeric exit code, while the local Failure
message carries the log path (and not the exit code, see the
counterexample). -/
theorem C3_classification_and_log_persistence :
    (∀ w (c : Int) t a f,
      (androidFinish w c t a f).logWritten = true ∧
      (androidFinish w c t a f).logPath =
        w ++ "/hyperzenith_logs/" ++
          (if c = 0 then "android_build_success" else "android_build_fail") ++
          "_" ++ t ++ ".log" ∧
      (c = 0 → ∃ msg, (androidFinish w c t a f).result = Except.ok msg) ∧
      (c ≠ 0 → (androidFinish w c t a f).result =
        Except.error ("Build failed. Log: " ++ androidLogPath w c t))) ∧
    (∀ cfg env, (create_session cfg env.ssh).2 = Except.ok () →
      env.preChannelErr = none → env.preExecErr = none →
      strContains env.preflightOutput xcodeNotFoundMarker = false →
      env.build.channelErr = none → env.build.execErr = none →
      (execute_turbo_ios cfg env).logWritten = true ∧
      ((execute_turbo_ios cfg env).result =
          Except.ok "iOS Build Completed Successfully via Satellite" ↔
        env.build.exitStatus = some 0) ∧
      (env.build.exitStatus = some 0 →
        (execute_turbo_ios cfg env).logPath =
          env.homeDir ++ "/.hyperzenith/ios_logs/" ++ "ios_build_success" ++ "_" ++
            env.timestamp ++ ".log") ∧
      (∀ k : Int, env.build.exitStatus = some k → k ≠ 0 →
        (execute_turbo_ios cfg env).result =
          Except.error ("Command failed with exit code: " ++ toString k) ∧
        (execute_turbo_ios cfg env).logPath =
          env.homeDir ++ "/.hyperzenith/ios_logs/" ++ "ios_build_fail" ++ "_" ++
            env.timestamp ++ ".log")) := by
  refine ⟨fun w c t a f => ?_, fun cfg env hsess hpc hpe hpf hbc hbe => ?_⟩
  · by_cases hc : c = 0
    · subst hc
      exact ⟨rfl, by simp [androidFinish, androidLogPath], fun _ => ⟨_, rfl⟩,
        fun h => absurd rfl h⟩
    · exact ⟨rfl, by simp [androidFinish, androidLogPath, hc], fun h => absurd h hc,
        fun _ => by simp [androidFinish, hc]⟩
  · rcases env with ⟨ssh, pc, pe, po, build, hd, ts⟩
    rcases build with ⟨bce, bee, bch, bst⟩
    simp only at hsess hpc hpe hpf hbc hbe
    subst hpc hpe hbc hbe
    cases bst with
    | none => simp [execute_turbo_ios, hsess, hpf, run_remote_command]
    | some k =>
      by_cases hk : k = 0
      · subst hk
        simp [execute_turbo_ios, hsess, hpf, run_remote_command]
      · simp [execute_turbo_ios, hsess, hpf, run_remote_command, hk]

/-! ## Claim C6: pre-flight toolchain gate on the remote path -/

/-- C6: once the session is established and the pre-flight channel works,
whenever the pre-flight output reports the toolchain absent
(`XCODE_NOT_FOUND`), `execute_turbo_ios` returns the specific "environment
invalid" error and never submits the hydration+build command. -/
theorem C6_preflight_gate (cfg : MacConfig) (env : TurboEnv)
    (hsess : (create_session cfg env.ssh).2 = Except.ok ())
    (hpc : env.preChannelErr = none) (hpe : env.preExecErr = none)
    (habsent : strContains env.preflightOutput xcodeNotFoundMarker = true) :
    (execute_turbo_ios cfg env).result = Except.error envInvalidMsg ∧
    (execute_turbo_ios cfg env).buildIssued = false ∧
    envInvalidMsg =
      "Remote environment invalid: 'xcodebuild' not found in PATH. Check if Xcode is installed and CLI tools are configured." := by
  rcases env with ⟨ssh, pc, pe, po, build, hd, ts⟩
  simp only at hsess hpc hpe habsent
  subst hpc hpe
  exact ⟨by simp [execute_turbo_ios, hsess, habsent],
    by simp [execute_turbo_ios, hsess, habsent], rfl⟩

/-- A session environment where connect, handshake and key authentication all
succeed (the key file exists). -/
def envAuthOk : SshEnv :=
  { connectErr := none, handshakeErr := none, keyFileExists := true,
    keyAuthErr := none, passwordAuthErr := none, authenticatedFlag := true }

/-- A remote-build environment whose pre-flight output reports the toolchain
absent. -/
def turboEnvNoXcode : TurboEnv :=
  { ssh := envAuthOk, preChannelErr := none, preExecErr := none,
    preflightOutput := "XCODE_NOT_FOUND\n",
    build := { channelErr := none, execErr := none, chunks := [], exitStatus := some 0 },
    homeDir := "/Users/dev", timestamp := "T" }

/-- C6 witness: the pre-flight gate theorem at a concrete descriptor and an
environment whose pre-flight output reports `XCODE_NOT_FOUND`. -/
theorem C6_witness :
    (execute_turbo_ios cfgBothCreds turboEnvNoXcode).result =
      Except.error envInvalidMsg ∧
    (execute_turbo_ios cfgBothCreds turboEnvNoXcode).buildIssued = false ∧
    envInvalidMsg =
      "Remote environment invalid: 'xcodebuild' not found in PATH. Check if Xcode is installed and CLI tools are configured." :=
  C6_preflight_gate cfgBothCreds turboEnvNoXcode (by decide) rfl rfl (by decide)

end Hyperzenith
